import Mathlib

/-!
Shallow embedding of the GarminBot synchronization/aggregation core
(`src/database/models.py`, `src/database/repository.py`,
`src/scheduler/jobs.py`, `src/garmin/client.py`, `src/main.py`,
`src/utils/insights.py`, `src/telegram/formatters.py`).

Conventions of the embedding:
* calendar dates and timestamps are integers (day numbers / instants);
* Python `float` values are rationals (`ℚ`), Python `int` values are `ℤ`;
* nullable columns / values are `Option`;
* Python `round(x, n)` (round-half-to-even) is `pyRound`-based,
  `int(x)` truncation toward zero is `truncInt`;
* fallible calls to the external Garmin provider are `Except String`;
* the SQLite store is a `RepoState`: a list of daily-metric rows plus an
  append-only sync log.
-/

namespace GarminBot

/-- Python `round` to the nearest integer, ties to even (banker's rounding). -/
def pyRound (q : ℚ) : ℤ :=
  if q - ⌊q⌋ < 1/2 then ⌊q⌋
  else if q - ⌊q⌋ > 1/2 then ⌊q⌋ + 1
  else if ⌊q⌋ % 2 = 0 then ⌊q⌋ else ⌊q⌋ + 1

/-- Python `round(x, 1)`. -/
def round1 (q : ℚ) : ℚ := (pyRound (q * 10) : ℚ) / 10

/-- Python `round(x, 2)`. -/
def round2 (q : ℚ) : ℚ := (pyRound (q * 100) : ℚ) / 100

/-- Python `int(x)` on a float: truncation toward zero. -/
def truncInt (q : ℚ) : ℤ := if 0 ≤ q then ⌊q⌋ else ⌈q⌉

/-- The mapped attributes of a `daily_metrics` row (`models.py`, class
`DailyMetrics`).  Column defaults: every metric column is nullable and
defaults to `NULL`; `garmin_sync_success` defaults to `True`.  The model
maps no `weight_kg` (and no `total_calories`) column:
`Repository._run_migrations` only `ALTER TABLE`s the SQLite file, which the
declarative mapper — and with it `hasattr`, the model constructor, and
instrumented attribute access — never sees, so a row object has no such
attribute. -/
structure DailyMetrics where
  date : ℤ
  sleep_hours : Option ℚ := none
  sleep_score : Option ℤ := none
  sleep_quality : Option String := none
  steps : Option ℤ := none
  active_calories : Option ℤ := none
  resting_calories : Option ℤ := none
  resting_heart_rate : Option ℤ := none
  avg_stress : Option ℤ := none
  body_battery_high : Option ℤ := none
  body_battery_low : Option ℤ := none
  synced_at : ℤ := 0
  garmin_sync_success : Bool := true
  deriving DecidableEq

/-- A `metrics` dict passed to `Repository.save_daily_metrics`: a partial
assignment of metric keys.  An outer `none` means the key is absent from
the dict; `some v` means the dict maps the key to `v` (which may itself be
null — Python dicts can carry explicit `None` values).  A dict may carry a
`weight_kg` key, but since the model maps no such column the `hasattr`
filters of `save_daily_metrics` drop it on both branches. -/
structure MetricsPatch where
  sleep_hours : Option (Option ℚ) := none
  sleep_score : Option (Option ℤ) := none
  sleep_quality : Option (Option String) := none
  steps : Option (Option ℤ) := none
  active_calories : Option (Option ℤ) := none
  resting_calories : Option (Option ℤ) := none
  resting_heart_rate : Option (Option ℤ) := none
  avg_stress : Option (Option ℤ) := none
  body_battery_high : Option (Option ℤ) := none
  body_battery_low : Option (Option ℤ) := none
  weight_kg : Option (Option ℚ) := none
  garmin_sync_success : Option Bool := none
  deriving DecidableEq

/-- The `for key, value in metrics.items(): if hasattr(existing, key):
setattr(existing, key, value)` loop of `Repository.save_daily_metrics`
(and the `hasattr(DailyMetrics, k)` comprehension of its create branch):
every key with a mapped column overwrites that column, keys absent leave
the column untouched, and a key with no mapped attribute — `weight_kg` —
fails the `hasattr` test and is silently dropped. -/
def applyPatch (m : MetricsPatch) (r : DailyMetrics) : DailyMetrics :=
  { r with
    sleep_hours := m.sleep_hours.getD r.sleep_hours
    sleep_score := m.sleep_score.getD r.sleep_score
    sleep_quality := m.sleep_quality.getD r.sleep_quality
    steps := m.steps.getD r.steps
    active_calories := m.active_calories.getD r.active_calories
    resting_calories := m.resting_calories.getD r.resting_calories
    resting_heart_rate := m.resting_heart_rate.getD r.resting_heart_rate
    avg_stress := m.avg_stress.getD r.avg_stress
    body_battery_high := m.body_battery_high.getD r.body_battery_high
    body_battery_low := m.body_battery_low.getD r.body_battery_low
    garmin_sync_success := m.garmin_sync_success.getD r.garmin_sync_success }

/-- `Repository.save_daily_metrics(day, metrics)`: update the first row with
the given date (merging only the provided keys and refreshing `synced_at`),
or insert a fresh row built from the provided keys with `synced_at = now`
and column defaults elsewhere. -/
def save_daily_metrics (now day : ℤ) (m : MetricsPatch) :
    List DailyMetrics → List DailyMetrics
  | [] => [applyPatch m { date := day, synced_at := now }]
  | r :: rest =>
    if r.date = day then
      { applyPatch m r with synced_at := now } :: rest
    else
      r :: save_daily_metrics now day m rest

/-- `Repository.get_metrics_by_date`: first row with the given date. -/
def get_metrics_by_date (day : ℤ) (db : List DailyMetrics) : Option DailyMetrics :=
  db.find? (fun r => r.date = day)

/-- `Repository.get_metrics_range(start_date, end_date)`: all rows with
`start_date <= date <= end_date`, ordered by date ascending. -/
def get_metrics_range (start_date end_date : ℤ) (db : List DailyMetrics) :
    List DailyMetrics :=
  List.insertionSort (fun a b => a.date ≤ b.date)
    (db.filter (fun r => decide (start_date ≤ r.date ∧ r.date ≤ end_date)))

/-- The `while current <= end_date` enumeration of
`Repository.get_missing_dates`: all dates of the inclusive range in
ascending order. -/
def dateRange (start_date end_date : ℤ) : List ℤ :=
  (List.range (end_date + 1 - start_date).toNat).map
    (fun i : ℕ => start_date + (i : ℤ))

/-- `Repository.get_missing_dates(start_date, end_date)`: dates of the
inclusive range whose date is not among the stored rows of the range. -/
def get_missing_dates (start_date end_date : ℤ) (db : List DailyMetrics) :
    List ℤ :=
  let existing := (get_metrics_range start_date end_date db).map (·.date)
  (dateRange start_date end_date).filter (fun d => decide (d ∉ existing))

/-- `Repository.save_manual_weight(day, weight_kg)` as shipped.  Because
`models.py` maps no `weight_kg` column, neither branch can persist the
weight: with an existing row, `existing.weight_kg = weight_kg` sets an
uninstrumented plain attribute that the session never flushes, so the
store is returned unchanged; with no row,
`DailyMetrics(date=day, weight_kg=..., garmin_sync_success=False)` raises
`TypeError` from the declarative constructor (invalid keyword argument)
and nothing is inserted. -/
def save_manual_weight (day : ℤ) (_weight_kg : ℚ) (db : List DailyMetrics) :
    Except String (List DailyMetrics) :=
  match get_metrics_by_date day db with
  | some _ => .ok db
  | none =>
    .error "TypeError: weight_kg is an invalid keyword argument for DailyMetrics"

/-- Python `max(it, key=f, default=None)`: first element with the maximal
key, or `none` for an empty iterable. -/
def firstMaxBy (f : DailyMetrics → ℚ) : List DailyMetrics → Option DailyMetrics
  | [] => none
  | x :: xs => some (xs.foldl (fun b y => if f b < f y then y else b) x)

/-- Python `min(it, key=f, default=None)`: first element with the minimal
key, or `none` for an empty iterable. -/
def firstMinBy (f : DailyMetrics → ℚ) : List DailyMetrics → Option DailyMetrics
  | [] => none
  | x :: xs => some (xs.foldl (fun b y => if f y < f b then y else b) x)

/-- Result dict of `Repository.get_weekly_stats` (the `{}` "no data" result
is `Option.none` at the call site). -/
structure WeeklyStats where
  start_date : ℤ
  end_date : ℤ
  days_with_data : ℕ
  sleep_avg_hours : Option ℚ
  sleep_avg_score : Option ℤ
  sleep_best_hours : Option ℚ
  sleep_best_day : Option ℤ
  sleep_worst_hours : Option ℚ
  sleep_worst_day : Option ℤ
  steps_avg : Option ℤ
  steps_total : Option ℤ
  active_calories_total : Option ℤ
  resting_calories_total : Option ℤ
  deriving DecidableEq

/-- `Repository.get_weekly_stats(end_date)`: 7-day window statistics ending
at `end_date` inclusive.  Returns `none` (the empty dict) when no rows exist
in the window; each aggregate is computed only over the non-null values of
its metric, and is null when no such value exists.  The best/worst selection
keeps Python's truthiness filter `if r.sleep_hours` (which also drops an
explicit 0.0) and `max`/`min` first-extremum semantics. -/
def get_weekly_stats (end_date : ℤ) (db : List DailyMetrics) :
    Option WeeklyStats :=
  let start := end_date - 6
  let rows := get_metrics_range start end_date db
  if rows = [] then none else
  let sleep_hours : List ℚ := rows.filterMap (·.sleep_hours)
  let sleep_scores : List ℤ := rows.filterMap (·.sleep_score)
  let steps : List ℤ := rows.filterMap (·.steps)
  let active_cals : List ℤ := rows.filterMap (·.active_calories)
  let resting_cals : List ℤ := rows.filterMap (·.resting_calories)
  let truthy := rows.filter (fun r => decide ((r.sleep_hours.getD 0) ≠ 0))
  let best_sleep_row := firstMaxBy (fun r => r.sleep_hours.getD 0) truthy
  let worst_sleep_row := firstMinBy (fun r => r.sleep_hours.getD 0) truthy
  some
    { start_date := start
      end_date := end_date
      days_with_data := rows.length
      sleep_avg_hours :=
        if sleep_hours = [] then none
        else some (round2 (sleep_hours.sum / sleep_hours.length))
      sleep_avg_score :=
        if sleep_scores = [] then none
        else some (pyRound ((sleep_scores.sum : ℚ) / sleep_scores.length))
      sleep_best_hours := best_sleep_row.bind (·.sleep_hours)
      sleep_best_day := best_sleep_row.map (·.date)
      sleep_worst_hours := worst_sleep_row.bind (·.sleep_hours)
      sleep_worst_day := worst_sleep_row.map (·.date)
      steps_avg :=
        if steps = [] then none
        else some (truncInt (round2 ((steps.sum : ℚ) / steps.length)))
      steps_total := if steps = [] then none else some steps.sum
      active_calories_total :=
        if active_cals = [] then none else some active_cals.sum
      resting_calories_total :=
        if resting_cals = [] then none else some resting_cals.sum }

/-- Status tag of a `sync_log` row (`models.py`, class `SyncLog`).  Python's
`"partial"` string is spelled `partialSync` (keyword clash). -/
inductive SyncStatus where
  | success
  | partialSync
  | error
  | report_sent
  deriving DecidableEq

/-- One row of the append-only `sync_log` table. -/
structure SyncLogEntry where
  sync_date : ℤ
  status : SyncStatus
  error_message : Option String := none
  deriving DecidableEq

/-- The durable store: the `daily_metrics` table plus the `sync_log` table. -/
structure RepoState where
  db : List DailyMetrics := []
  log : List SyncLogEntry := []
  deriving DecidableEq

/-- `Repository.log_sync(status, error_message)`: append one timestamped
attempt entry. -/
def log_sync (now : ℤ) (status : SyncStatus) (msg : Option String)
    (st : RepoState) : RepoState :=
  { st with log := st.log ++ [{ sync_date := now, status := status,
                                error_message := msg }] }

/-- `Repository.log_report_sent()`: `log_sync("report_sent")`. -/
def log_report_sent (now : ℤ) (st : RepoState) : RepoState :=
  log_sync now .report_sent none st

/-- `Repository.has_report_sent_today()`: some `report_sent` entry with
timestamp at or after the start of the current UTC day (`todayStart`). -/
def has_report_sent_today (todayStart : ℤ) (st : RepoState) : Bool :=
  st.log.any (fun e =>
    decide (e.status = .report_sent ∧ todayStart ≤ e.sync_date))

/-- `Repository.has_successful_sync_today()`: some `success` entry with
timestamp at or after the start of the current UTC day. -/
def has_successful_sync_today (todayStart : ℤ) (st : RepoState) : Bool :=
  st.log.any (fun e =>
    decide (e.status = .success ∧ todayStart ≤ e.sync_date))

/-- `GarminClient.to_metrics_dict` result, restricted to the
`garmin_sync_success` flag semantics: the status chosen by the scheduler
jobs is `"success" if metrics.get("garmin_sync_success") else "partial"`,
i.e. `success` exactly when the dict holds a truthy flag. -/
def syncStatusOf (m : MetricsPatch) : SyncStatus :=
  if m.garmin_sync_success = some true then .success else .partialSync

/-- `jobs._send_daily_report(repo, bot, config)`.

The sync outcome already committed, this reads yesterday's row and then:
* no row: sends an error notification (`bot.send_error`, which may itself
  raise — parameter `notifyOk`) and, when that delivery succeeds, appends a
  `report_sent` entry "to avoid duplicate error messages";
* row present: the report payload dict is built from the row, reading
  `row.total_calories` — a column `DailyMetrics` (`models.py`) does not
  define, so the attribute access raises `AttributeError` before any
  message is sent and before `log_report_sent` runs.

Returns the store state together with `true` when the call raised. -/
def send_daily_report (yesterday now : ℤ) (notifyOk : Bool)
    (st : RepoState) : RepoState × Bool :=
  match get_metrics_by_date yesterday st.db with
  | none => if notifyOk then (log_report_sent now st, false) else (st, true)
  | some _ => (st, true)

/-- The sync attempt shared by `wake_check_job` and `wake_fallback_job`
(`summary = garmin.get_yesterday_summary(); metrics = ...;
repo.save_daily_metrics(summary.date, metrics); repo.log_sync(status)`,
with any exception converted to an `error` entry).  `sync` is the outcome
of the fetch+convert: the summary date together with the metrics dict, or
the raised exception's message. -/
def run_sync_attempt (now : ℤ) (sync : Except String (ℤ × MetricsPatch))
    (st : RepoState) : RepoState :=
  match sync with
  | .ok (day, m) =>
      log_sync now (syncStatusOf m) none
        { st with db := save_daily_metrics now day m st.db }
  | .error e => log_sync now .error (some e) st

/-- `jobs.wake_check_job` (closure of `make_wake_check_job`): skip when a
report was already sent today; otherwise poll `check_sleep_available` and,
on a positive answer, run the sync attempt and then `_send_daily_report`. -/
def wake_check_job (todayStart yesterday now : ℤ) (avail : Bool)
    (sync : Except String (ℤ × MetricsPatch)) (notifyOk : Bool)
    (st : RepoState) : RepoState × Bool :=
  if has_report_sent_today todayStart st then (st, false)
  else if avail = false then (st, false)
  else send_daily_report yesterday now notifyOk (run_sync_attempt now sync st)

/-- `jobs.wake_fallback_job` (closure of `make_wake_fallback_job`): skip
when a report was already sent today; otherwise force the sync attempt and
then `_send_daily_report`. -/
def wake_fallback_job (todayStart yesterday now : ℤ)
    (sync : Except String (ℤ × MetricsPatch)) (notifyOk : Bool)
    (st : RepoState) : RepoState × Bool :=
  if has_report_sent_today todayStart st then (st, false)
  else send_daily_report yesterday now notifyOk (run_sync_attempt now sync st)

/-- `client.SleepData`. -/
structure SleepData where
  hours : Option ℚ := none
  score : Option ℤ := none
  quality : Option String := none
  deriving DecidableEq

/-- `client.ActivityData`. -/
structure ActivityData where
  steps : Option ℤ := none
  active_calories : Option ℤ := none
  resting_calories : Option ℤ := none
  deriving DecidableEq

/-- Result of `GarminClient.get_health_data` (never raises). -/
structure HealthData where
  resting_heart_rate : Option ℤ := none
  avg_stress : Option ℤ := none
  body_battery_high : Option ℤ := none
  body_battery_low : Option ℤ := none
  deriving DecidableEq

/-- `client.DailySummary`. -/
structure DailySummary where
  date : ℤ
  sleep : SleepData
  activity : ActivityData
  health : HealthData
  deriving DecidableEq

/-- The `for sleep_date in [day + 1, day]` loop of
`GarminClient.get_summary_for_date`: try each candidate date in order,
keeping the first fetched sleep record with a non-null duration; a fetch
error or a null duration moves on to the next candidate.  Also returns the
list of dates actually queried. -/
def trySleepDates (fetchSleep : ℤ → Except String SleepData) :
    List ℤ → SleepData × List ℤ
  | [] => ({ hours := none, score := none, quality := none }, [])
  | d :: rest =>
    match fetchSleep d with
    | .ok c =>
      if c.hours.isSome then (c, [d])
      else
        let (s, ds) := trySleepDates fetchSleep rest
        (s, d :: ds)
    | .error _ =>
      let (s, ds) := trySleepDates fetchSleep rest
      (s, d :: ds)

/-- `GarminClient.get_summary_for_date(day)`: sleep looked up at `day + 1`
first, falling back to `day`; activity fetched at `day` itself (a failure
leaves the all-null default); health fetched at `day` (never raises); the
summary carries `date = day`.  The second component is the list of dates
the sleep fetch was attempted at. -/
def get_summary_for_date (fetchSleep : ℤ → Except String SleepData)
    (fetchActivity : ℤ → Except String ActivityData)
    (fetchHealth : ℤ → HealthData) (day : ℤ) : DailySummary × List ℤ :=
  let (sleep, tried) := trySleepDates fetchSleep [day + 1, day]
  let activity :=
    match fetchActivity day with
    | .ok a => a
    | .error _ => { steps := none, active_calories := none,
                    resting_calories := none }
  ({ date := day, sleep := sleep, activity := activity,
     health := fetchHealth day }, tried)

/-- `GarminClient.to_metrics_dict(summary)`: the flat dict stored by the
sync pipeline.  `garmin_sync_success` is Python truthiness of any of sleep
hours, sleep score or steps (null and zero both count as missing). -/
def to_metrics_dict (s : DailySummary) : MetricsPatch :=
  { sleep_hours := some s.sleep.hours
    sleep_score := some s.sleep.score
    sleep_quality := some s.sleep.quality
    steps := some s.activity.steps
    active_calories := some s.activity.active_calories
    resting_calories := some s.activity.resting_calories
    resting_heart_rate := some s.health.resting_heart_rate
    avg_stress := some s.health.avg_stress
    body_battery_high := some s.health.body_battery_high
    body_battery_low := some s.health.body_battery_low
    garmin_sync_success :=
      some (s.sleep.hours.getD 0 ≠ 0 ∨ s.sleep.score.getD 0 ≠ 0 ∨
            s.activity.steps.getD 0 ≠ 0 : Bool) }

/-- Observable actions of one startup-backfill pass, in execution order. -/
inductive BackfillEvent where
  | fetched (day : ℤ)
  | stored (day : ℤ)
  | logged (day : ℤ) (status : SyncStatus)
  | paused (day : ℤ)
  deriving DecidableEq

/-- The `for day in missing:` loop of `main._run_startup_backfill`: fetch
the day's summary (`fetch` stands for `get_summary_for_date` followed by
`to_metrics_dict`, either of which may raise), store it, append a `success`
attempt and pause (`time.sleep(2)`); an exception for one day is caught and
only logged as a warning — no attempt entry — before moving to the next
day. -/
def backfill_days (fetch : ℤ → Except String MetricsPatch) (now : ℤ) :
    List ℤ → RepoState → RepoState × List BackfillEvent
  | [], st => (st, [])
  | day :: rest, st =>
    match fetch day with
    | .ok m =>
      let st1 := log_sync now .success none
        { st with db := save_daily_metrics now day m st.db }
      let (stf, evs) := backfill_days fetch now rest st1
      (stf, .fetched day :: .stored day :: .logged day .success ::
            .paused day :: evs)
    | .error _ =>
      let (stf, evs) := backfill_days fetch now rest st
      (stf, .fetched day :: evs)

/-- `main._run_startup_backfill`: compute the missing dates of the trailing
7-day window ending yesterday (`today - 1`) and replay each one. -/
def run_startup_backfill (fetch : ℤ → Except String MetricsPatch)
    (now today : ℤ) (st : RepoState) : RepoState × List BackfillEvent :=
  backfill_days fetch now
    (get_missing_dates (today - 7) (today - 1) st.db) st

/-- `insights._count_streak(rows, condition)`: walk the row list from the
most recent end backwards, counting while the condition holds and stopping
at the first failure. -/
def countStreakRev {α : Type} (condition : α → Bool) : List α → ℕ
  | [] => 0
  | r :: rest => if condition r then 1 + countStreakRev condition rest else 0

/-- `_count_streak` proper: the backwards walk is a forward walk over the
reversed list. -/
def count_streak {α : Type} (rows : List α) (condition : α → Bool) : ℕ :=
  countStreakRev condition rows.reverse

/-- The steps-goal predicate used by `insights.generate_insights`:
`lambda r: r.steps is not None and r.steps >= steps_goal`. -/
def stepsGoalCond (steps_goal : ℤ) (r : DailyMetrics) : Bool :=
  match r.steps with
  | some s => decide (steps_goal ≤ s)
  | none => false

/-- `formatters.calculate_deficit(active_cal, resting_cal, eaten_cal)`. -/
def calculate_deficit (active_cal resting_cal : Option ℤ)
    (eaten_cal : Option ℚ) : Option ℤ × Option ℚ :=
  match eaten_cal with
  | none => (none, none)
  | some e =>
    if e = 0 then (none, none)
    else
      let total_burned := active_cal.getD 0 + resting_cal.getD 0
      if total_burned = 0 then (none, none)
      else
        let deficit := total_burned - truncInt e
        (some deficit,
         some (round1 ((deficit : ℚ) / (total_burned : ℚ) * 100)))

/-- A sleep lookup counts as usable when it neither failed nor returned a
null duration (`candidate.hours is not None`). -/
def usableSleep (res : Except String SleepData) : Bool :=
  match res with
  | .ok c => c.hours.isSome
  | .error _ => false

/-! ### Helper lemmas -/

lemma countStreakRev_eq_takeWhile {α : Type} (c : α → Bool) (l : List α) :
    countStreakRev c l = (l.takeWhile c).length := by
  induction l with
  | nil => rfl
  | cons x xs ih =>
    by_cases h : c x = true
    · simp [countStreakRev, h, List.takeWhile_cons, ih, Nat.add_comm]
    · simp [countStreakRev, h, List.takeWhile_cons]

lemma head?_dropWhile_false {α : Type} (c : α → Bool) (l : List α) :
    ∀ r, (l.dropWhile c).head? = some r → c r = false := by
  induction l with
  | nil => intro r hr; simp at hr
  | cons x xs ih =>
    intro r hr
    by_cases h : c x = true
    · exact ih r (by simpa [List.dropWhile_cons, h] using hr)
    · simp [List.dropWhile_cons, h] at hr
      subst hr
      simpa using h

/-! ### C8: streak counting -/

/-- C8: for every date-ordered record list and predicate, `_count_streak`
returns the length of the maximal trailing run of records satisfying the
predicate: the list splits as `pre ++ suf` with every record of `suf`
satisfying the predicate and the record just before the run (the last of
`pre`, when any) failing it; a null value fails the steps-goal predicate
exactly like a failing value, and the concrete example
`steps = [12000, 12000, 5000, 12000, 12000, 12000]` with goal 10000 yields
streak 3. -/
theorem count_streak_is_maximal_trailing_run :
    (∀ (α : Type) (rows : List α) (c : α → Bool),
      ∃ pre suf, rows = pre ++ suf ∧
        suf.length = count_streak rows c ∧
        (∀ r ∈ suf, c r = true) ∧
        (∀ r, pre.getLast? = some r → c r = false)) ∧
    count_streak
      (([12000, 12000, 5000, 12000, 12000, 12000] : List ℤ).map
        (fun s => ({ date := 0, steps := some s } : DailyMetrics)))
      (stepsGoalCond 10000) = 3 ∧
    stepsGoalCond 10000 { date := 0, steps := none } = false := by
  refine ⟨?_, by decide, by decide⟩
  intro α rows c
  refine ⟨(rows.reverse.dropWhile c).reverse,
          (rows.reverse.takeWhile c).reverse, ?_, ?_, ?_, ?_⟩
  · conv_lhs => rw [← rows.reverse_reverse,
      ← List.takeWhile_append_dropWhile (p := c) (l := rows.reverse)]
    rw [List.reverse_append]
  · simp [count_streak, countStreakRev_eq_takeWhile]
  · intro r hr
    exact List.mem_takeWhile_imp (by simpa using hr)
  · intro r hr
    rw [List.getLast?_reverse] at hr
    exact head?_dropWhile_false c rows.reverse r hr

/-- C8 witness: the concrete streak example, read off from
`count_streak_is_maximal_trailing_run`. -/
theorem count_streak_is_maximal_trailing_run_witness :
    count_streak
      (([12000, 12000, 5000, 12000, 12000, 12000] : List ℤ).map
        (fun s => ({ date := 0, steps := some s } : DailyMetrics)))
      (stepsGoalCond 10000) = 3 :=
  count_streak_is_maximal_trailing_run.2.1

/-! ### C9: caloric balance -/

/-- C9: `calculate_deficit` returns the explicit no-result `(None, None)`
when consumed calories are absent or zero, or when the total expenditure is
zero; otherwise the deficit is `(active + resting) - int(eaten)` and the
percentage is `deficit / total * 100` rounded to one decimal; for
`active=500, resting=1600, eaten=1850` it returns deficit 250 and
percentage 11.9. -/
theorem calculate_deficit_spec :
    (∀ a r : Option ℤ,
      calculate_deficit a r none = (none, none) ∧
      calculate_deficit a r (some 0) = (none, none)) ∧
    (∀ (a r : Option ℤ) (e : Option ℚ), a.getD 0 + r.getD 0 = 0 →
      calculate_deficit a r e = (none, none)) ∧
    (∀ (a r : ℤ) (e : ℚ), e ≠ 0 → a + r ≠ 0 →
      calculate_deficit (some a) (some r) (some e) =
        (some (a + r - truncInt e),
         some (round1 (((a + r - truncInt e : ℤ) : ℚ) / ((a + r : ℤ) : ℚ) * 100)))) ∧
    calculate_deficit (some 500) (some 1600) (some 1850) =
      (some 250, some (119 / 10)) := by
  refine ⟨?_, ?_, ?_, by norm_num [calculate_deficit, truncInt, round1, pyRound]⟩
  · intro a r
    exact ⟨rfl, by simp [calculate_deficit]⟩
  · intro a r e h
    match e with
    | none => rfl
    | some e' =>
      by_cases he : e' = 0
      · simp [calculate_deficit, he]
      · simp [calculate_deficit, he, h]
  · intro a r e he ht
    simp [calculate_deficit, he, ht]

/-- C9 witness: a concrete zero-expenditure input, discharged through
`calculate_deficit_spec`. -/
theorem calculate_deficit_spec_witness :
    calculate_deficit none none (some 5) = (none, none) :=
  calculate_deficit_spec.2.1 none none (some 5) (by decide)

/-! ### C5: historical sleep-date heuristic -/

/-- C5: `get_summary_for_date(day)` queries sleep at `day + 1` first and at
`day` itself exactly when the `day + 1` lookup failed or had no usable
duration; the sleep kept is the first usable candidate in that order (all
null when neither is usable); activity is always taken from the `day`
lookup; the summary is dated `day`. -/
theorem get_summary_for_date_spec :
    ∀ (fS : ℤ → Except String SleepData)
      (fA : ℤ → Except String ActivityData)
      (fH : ℤ → HealthData) (day : ℤ),
      ((get_summary_for_date fS fA fH day).2 =
        if usableSleep (fS (day + 1)) then [day + 1] else [day + 1, day]) ∧
      (get_summary_for_date fS fA fH day).1.date = day ∧
      ((get_summary_for_date fS fA fH day).1.activity =
        match fA day with
        | .ok a => a
        | .error _ => { steps := none, active_calories := none,
                        resting_calories := none }) ∧
      (∀ c, fS (day + 1) = .ok c → c.hours.isSome →
        (get_summary_for_date fS fA fH day).1.sleep = c) ∧
      (∀ c, usableSleep (fS (day + 1)) = false → fS day = .ok c →
        c.hours.isSome → (get_summary_for_date fS fA fH day).1.sleep = c) ∧
      (usableSleep (fS (day + 1)) = false → usableSleep (fS day) = false →
        (get_summary_for_date fS fA fH day).1.sleep =
          { hours := none, score := none, quality := none }) := by
  intro fS fA fH day
  have step :
      ∀ (res : SleepData × List ℤ),
        trySleepDates fS [day + 1, day] = res →
        (get_summary_for_date fS fA fH day).1.sleep = res.1 ∧
        (get_summary_for_date fS fA fH day).2 = res.2 := by
    intro res h
    simp [get_summary_for_date, h]
  refine ⟨?_, rfl, rfl, ?_, ?_, ?_⟩
  · cases h1 : fS (day + 1) with
    | ok c1 =>
      cases hh1 : c1.hours.isSome with
      | true =>
        have := step (c1, [day + 1]) (by simp [trySleepDates, h1, hh1])
        simp [this.2, usableSleep, h1, hh1]
      | false =>
        cases h2 : fS day with
        | ok c2 =>
          cases hh2 : c2.hours.isSome with
          | true =>
            have := step (c2, [day + 1, day])
              (by simp [trySleepDates, h1, hh1, h2, hh2])
            simp [this.2, usableSleep, h1, hh1]
          | false =>
            have := step ({ hours := none, score := none, quality := none },
                [day + 1, day])
              (by simp [trySleepDates, h1, hh1, h2, hh2])
            simp [this.2, usableSleep, h1, hh1]
        | error e =>
          have := step ({ hours := none, score := none, quality := none },
              [day + 1, day]) (by simp [trySleepDates, h1, hh1, h2])
          simp [this.2, usableSleep, h1, hh1]
    | error e =>
      cases h2 : fS day with
      | ok c2 =>
        cases hh2 : c2.hours.isSome with
        | true =>
          have := step (c2, [day + 1, day])
            (by simp [trySleepDates, h1, h2, hh2])
          simp [this.2, usableSleep, h1]
        | false =>
          have := step ({ hours := none, score := none, quality := none },
              [day + 1, day]) (by simp [trySleepDates, h1, h2, hh2])
          simp [this.2, usableSleep, h1]
      | error e2 =>
        have := step ({ hours := none, score := none, quality := none },
            [day + 1, day]) (by simp [trySleepDates, h1, h2])
        simp [this.2, usableSleep, h1]
  · intro c h1 hh1
    have := step (c, [day + 1]) (by simp [trySleepDates, h1, hh1])
    exact this.1
  · intro c hu h2 hh2
    cases h1 : fS (day + 1) with
    | ok c1 =>
      have hh1 : c1.hours.isSome = false := by
        simpa [usableSleep, h1] using hu
      have := step (c, [day + 1, day])
        (by simp [trySleepDates, h1, hh1, h2, hh2])
      exact this.1
    | error e =>
      have := step (c, [day + 1, day])
        (by simp [trySleepDates, h1, h2, hh2])
      exact this.1
  · intro hu1 hu2
    cases h1 : fS (day + 1) with
    | ok c1 =>
      have hh1 : c1.hours.isSome = false := by
        simpa [usableSleep, h1] using hu1
      cases h2 : fS day with
      | ok c2 =>
        have hh2 : c2.hours.isSome = false := by
          simpa [usableSleep, h2] using hu2
        have := step ({ hours := none, score := none, quality := none },
            [day + 1, day]) (by simp [trySleepDates, h1, hh1, h2, hh2])
        exact this.1
      | error e =>
        have := step ({ hours := none, score := none, quality := none },
            [day + 1, day]) (by simp [trySleepDates, h1, hh1, h2])
        exact this.1
    | error e =>
      cases h2 : fS day with
      | ok c2 =>
        have hh2 : c2.hours.isSome = false := by
          simpa [usableSleep, h2] using hu2
        have := step ({ hours := none, score := none, quality := none },
            [day + 1, day]) (by simp [trySleepDates, h1, h2, hh2])
        exact this.1
      | error e2 =>
        have := step ({ hours := none, score := none, quality := none },
            [day + 1, day]) (by simp [trySleepDates, h1, h2])
        exact this.1

/-- C5 witness: with a provider that only has usable sleep at date 4, the
summary for date 3 tries sleep only at 4 and keeps that sleep record. -/
theorem get_summary_for_date_spec_witness :
    (get_summary_for_date
      (fun d => if d = 4 then Except.ok (SleepData.mk (some 8) (some 80) (some "Bom")) else .error "down")
      (fun _ => .error "down") (fun _ => HealthData.mk none none none none) 3).2 = [4] ∧
    (get_summary_for_date
      (fun d => if d = 4 then Except.ok (SleepData.mk (some 8) (some 80) (some "Bom")) else .error "down")
      (fun _ => .error "down") (fun _ => HealthData.mk none none none none) 3).1.sleep =
      SleepData.mk (some 8) (some 80) (some "Bom") := by
  have h := get_summary_for_date_spec
    (fun d => if d = 4 then Except.ok (SleepData.mk (some 8) (some 80) (some "Bom")) else .error "down")
    (fun _ => .error "down") (fun _ => HealthData.mk none none none none) 3
  refine ⟨?_, h.2.2.2.1 _ (by norm_num) rfl⟩
  have := h.1
  simpa [usableSleep] using this

/-! ### C3: partial-upsert union -/

/-- C3: evidence against the universal partial-upsert union claim at a
concrete input.  A dict carrying `weight_kg` (the very input of the
repository's own `test_migration_adds_weight_column`) is upserted for date
3, followed by a disjoint steps-only dict; the `hasattr` filters drop the
`weight_kg` key because `models.py` maps no such column, so the upsert is
indistinguishable from one without the weight key and the final record
carries the steps write but no trace of the weight write (the row's
`weight_kg` table column stays `NULL`).  The test asserts the write must
land, so the claim states the intended behaviour and the shipped model is
the slip. -/
theorem save_daily_metrics_drops_weight_write :
    save_daily_metrics 1 3 { weight_kg := some (some (157/2)) } [] =
      save_daily_metrics 1 3 {} [] ∧
    get_metrics_by_date 3
      (save_daily_metrics 2 3 { steps := some (some 100) }
        (save_daily_metrics 1 3 { weight_kg := some (some (157/2)) } [])) =
      some { date := 3, steps := some 100, synced_at := 2 } := by
  decide

/-! ### C10: manual weight entry -/

/-- C10: evidence that `save_manual_weight` cannot perform the claimed
weight-only write on the shipped source.  With no record for the date, the
declarative constructor rejects the unmapped `weight_kg` keyword and
raises `TypeError` — no record with `garmin_sync_success = False` is ever
created; with an existing record, the assignment targets an uninstrumented
attribute that is never flushed, so the store is returned unchanged — the
other fields (and `synced_at`) are indeed untouched, but so is the weight.
The repository's own tests (`test_save_manual_weight_new_day`,
`test_save_manual_weight_existing_day`) assert the claimed create/update
behaviour, so the claim is the intent and the unmapped column is the
slip. -/
theorem save_manual_weight_cannot_persist :
    save_manual_weight 4 (157/2) [] =
      .error
        "TypeError: weight_kg is an invalid keyword argument for DailyMetrics" ∧
    save_manual_weight 3 (157/2)
        [{ date := 3, steps := some 100, synced_at := 5 }] =
      .ok [{ date := 3, steps := some 100, synced_at := 5 }] :=
  ⟨rfl, rfl⟩

/-! ### C6: missingDates exactness -/

lemma mem_dateRange (s e d : ℤ) : d ∈ dateRange s e ↔ s ≤ d ∧ d ≤ e := by
  simp only [dateRange, List.mem_map, List.mem_range]
  constructor
  · rintro ⟨i, hi, rfl⟩
    omega
  · rintro ⟨h1, h2⟩
    exact ⟨(d - s).toNat, by omega, by omega⟩

lemma mem_get_metrics_range (s e : ℤ) (db : List DailyMetrics)
    (r : DailyMetrics) :
    r ∈ get_metrics_range s e db ↔ r ∈ db ∧ s ≤ r.date ∧ r.date ≤ e := by
  rw [get_metrics_range, (List.perm_insertionSort _ _).mem_iff,
    List.mem_filter]
  simp

lemma sorted_get_missing_dates (s e : ℤ) (db : List DailyMetrics) :
    List.Sorted (· < ·) (get_missing_dates s e db) := by
  have hr : List.Sorted (· < ·) (dateRange s e) := by
    rw [dateRange]
    exact (List.pairwise_lt_range _).map _ (fun a b h => by omega)
  rw [get_missing_dates]
  exact hr.sublist (List.filter_sublist _)

/-- C6: for `start ≤ end`, `get_missing_dates` returns exactly the dates of
the inclusive range that have no stored record, in strictly ascending
order; it is empty when every date of the range has a record, and is the
whole enumerated range when the store holds no record in the range. -/
theorem get_missing_dates_spec :
    ∀ (start_date end_date : ℤ) (db : List DailyMetrics),
      start_date ≤ end_date →
      (∀ d, d ∈ get_missing_dates start_date end_date db ↔
        (start_date ≤ d ∧ d ≤ end_date ∧ ∀ r ∈ db, r.date ≠ d)) ∧
      List.Sorted (· < ·) (get_missing_dates start_date end_date db) ∧
      ((∀ d, start_date ≤ d → d ≤ end_date → ∃ r ∈ db, r.date = d) →
        get_missing_dates start_date end_date db = []) ∧
      ((∀ r ∈ db, ¬(start_date ≤ r.date ∧ r.date ≤ end_date)) →
        get_missing_dates start_date end_date db = dateRange start_date end_date) := by
  intro s e db _
  have hmem : ∀ d, d ∈ get_missing_dates s e db ↔
      (s ≤ d ∧ d ≤ e ∧ ∀ r ∈ db, r.date ≠ d) := by
    intro d
    rw [get_missing_dates]
    simp only [List.mem_filter, mem_dateRange, decide_eq_true_eq,
      List.mem_map, mem_get_metrics_range]
    constructor
    · rintro ⟨⟨h1, h2⟩, hno⟩
      refine ⟨h1, h2, ?_⟩
      intro r hr hrd
      exact hno ⟨r, ⟨hr, by omega, by omega⟩, hrd⟩
    · rintro ⟨h1, h2, hno⟩
      refine ⟨⟨h1, h2⟩, ?_⟩
      rintro ⟨r, ⟨hr, -, -⟩, hrd⟩
      exact hno r hr hrd
  refine ⟨hmem, sorted_get_missing_dates s e db, ?_, ?_⟩
  · intro hfull
    rw [List.eq_nil_iff_forall_not_mem]
    intro d hd
    obtain ⟨h1, h2, hno⟩ := (hmem d).mp hd
    obtain ⟨r, hr, hrd⟩ := hfull d h1 h2
    exact hno r hr hrd
  · intro hempty
    rw [get_missing_dates]
    apply List.filter_eq_self.mpr
    intro d hd
    rw [mem_dateRange] at hd
    simp only [decide_eq_true_eq, List.mem_map, mem_get_metrics_range]
    rintro ⟨r, ⟨hr, hw1, hw2⟩, -⟩
    exact hempty r hr ⟨hw1, hw2⟩

/-- C6 witness: a store with no record in range yields the whole range. -/
theorem get_missing_dates_spec_witness :
    get_missing_dates 1 3 [] = dateRange 1 3 :=
  (get_missing_dates_spec 1 3 [] (by decide)).2.2.2 (by simp)

/-! ### C7: empty-window statistics -/

lemma get_metrics_range_eq_nil_iff (s e : ℤ) (db : List DailyMetrics) :
    get_metrics_range s e db = [] ↔
      ∀ r ∈ db, ¬(s ≤ r.date ∧ r.date ≤ e) := by
  constructor
  · intro h r hr hw
    have : r ∈ get_metrics_range s e db :=
      (mem_get_metrics_range s e db r).mpr ⟨hr, hw.1, hw.2⟩
    simp [h] at this
  · intro hall
    have hf : db.filter
        (fun r => decide (s ≤ r.date ∧ r.date ≤ e)) = [] := by
      rw [List.filter_eq_nil_iff]
      intro r hr
      simpa using hall r hr
    rw [get_metrics_range, hf]
    rfl

lemma get_weekly_stats_eq_none_iff (e : ℤ) (db : List DailyMetrics) :
    get_weekly_stats e db = none ↔
      get_metrics_range (e - 6) e db = [] := by
  by_cases h : get_metrics_range (e - 6) e db = []
  · simp [get_weekly_stats, h]
  · simp [get_weekly_stats, h]

/-- Congruence for the `if lst else None` aggregate pattern: permuting the
sample list and rewriting the aggregate value leaves the result unchanged. -/
lemma ite_nil_congr {α β : Type} [DecidableEq α] {l1 l2 : List α} (h : l1.Perm l2)
    {b v1 v2 : β} (hv : v1 = v2) :
    (if l1 = [] then b else v1) = (if l2 = [] then b else v2) := by
  by_cases h1 : l1 = []
  · have h2 : l2 = [] := (h1 ▸ h).symm.eq_nil
    rw [if_pos h1, if_pos h2]
  · have h2 : l2 ≠ [] := fun he => h1 ((he ▸ h).eq_nil)
    rw [if_neg h1, if_neg h2, hv]

/-- C7: the weekly aggregates are computed only over records present in the
7-day window with non-null values for the metric: a window containing no
records yields the explicit no-data result (`none`, the empty dict); a
nonempty window whose records all have null values for a metric yields a
null aggregate for that metric; otherwise the average is the rounded mean
of exactly the non-null values of the window's records — never zero and
never an exception. -/
theorem get_weekly_stats_empty_window :
    ∀ (end_date : ℤ) (db : List DailyMetrics),
      (get_weekly_stats end_date db = none ↔
        ∀ r ∈ db, ¬(end_date - 6 ≤ r.date ∧ r.date ≤ end_date)) ∧
      (∀ s, get_weekly_stats end_date db = some s →
        (s.sleep_avg_hours =
          (if ((db.filter (fun r =>
              decide (end_date - 6 ≤ r.date ∧ r.date ≤ end_date))).filterMap
              (·.sleep_hours)) = [] then none
           else some (round2
            (((db.filter (fun r =>
              decide (end_date - 6 ≤ r.date ∧ r.date ≤ end_date))).filterMap
              (·.sleep_hours)).sum /
             ((db.filter (fun r =>
              decide (end_date - 6 ≤ r.date ∧ r.date ≤ end_date))).filterMap
              (·.sleep_hours)).length))) ∧
         s.steps_avg =
          (if ((db.filter (fun r =>
              decide (end_date - 6 ≤ r.date ∧ r.date ≤ end_date))).filterMap
              (·.steps)) = [] then none
           else some (truncInt (round2
            (((((db.filter (fun r =>
              decide (end_date - 6 ≤ r.date ∧ r.date ≤ end_date))).filterMap
              (·.steps)).sum : ℤ) : ℚ) /
             ((db.filter (fun r =>
              decide (end_date - 6 ≤ r.date ∧ r.date ≤ end_date))).filterMap
              (·.steps)).length)))) ∧
         s.steps_total =
          (if ((db.filter (fun r =>
              decide (end_date - 6 ≤ r.date ∧ r.date ≤ end_date))).filterMap
              (·.steps)) = [] then none
           else some ((db.filter (fun r =>
              decide (end_date - 6 ≤ r.date ∧ r.date ≤ end_date))).filterMap
              (·.steps)).sum))) ∧
      (∀ s, get_weekly_stats end_date db = some s →
        (∀ r ∈ db, end_date - 6 ≤ r.date → r.date ≤ end_date →
          r.sleep_hours = none) →
        s.sleep_avg_hours = none) := by
  intro e db
  have hperm : List.Perm (get_metrics_range (e - 6) e db)
      (db.filter (fun r => decide (e - 6 ≤ r.date ∧ r.date ≤ e))) :=
    List.perm_insertionSort _ _
  have hfields : ∀ s, get_weekly_stats e db = some s →
      (s.sleep_avg_hours =
        (if ((get_metrics_range (e - 6) e db).filterMap
            (·.sleep_hours)) = [] then none
         else some (round2
          (((get_metrics_range (e - 6) e db).filterMap (·.sleep_hours)).sum /
           ((get_metrics_range (e - 6) e db).filterMap
            (·.sleep_hours)).length))) ∧
       s.steps_avg =
        (if ((get_metrics_range (e - 6) e db).filterMap (·.steps)) = []
         then none
         else some (truncInt (round2
          (((((get_metrics_range (e - 6) e db).filterMap (·.steps)).sum : ℤ) : ℚ) /
           ((get_metrics_range (e - 6) e db).filterMap (·.steps)).length)))) ∧
       s.steps_total =
        (if ((get_metrics_range (e - 6) e db).filterMap (·.steps)) = []
         then none
         else some ((get_metrics_range (e - 6) e db).filterMap
            (·.steps)).sum)) := by
    intro s hs
    rw [get_weekly_stats] at hs
    by_cases h : get_metrics_range (e - 6) e db = []
    · simp [h] at hs
    · simp only [h, if_neg, Option.some.injEq, reduceIte] at hs
      subst hs
      exact ⟨rfl, rfl, rfl⟩
  refine ⟨?_, ?_, ?_⟩
  · rw [get_weekly_stats_eq_none_iff, get_metrics_range_eq_nil_iff]
  · intro s hs
    obtain ⟨h1, h2, h3⟩ := hfields s hs
    have hps := hperm.filterMap (·.sleep_hours)
    have hpt := hperm.filterMap (·.steps)
    refine ⟨?_, ?_, ?_⟩
    · rw [h1]
      exact ite_nil_congr hps (by rw [hps.sum_eq, hps.length_eq])
    · rw [h2]
      exact ite_nil_congr hpt (by rw [hpt.sum_eq, hpt.length_eq])
    · rw [h3]
      exact ite_nil_congr hpt (by rw [hpt.sum_eq])
  · intro s hs hall
    obtain ⟨h1, -, -⟩ := hfields s hs
    rw [h1]
    have hnil : (get_metrics_range (e - 6) e db).filterMap
        (·.sleep_hours) = [] := by
      rw [List.filterMap_eq_nil_iff]
      intro r hr
      obtain ⟨hrdb, hw1, hw2⟩ := (mem_get_metrics_range _ _ _ _).mp hr
      exact hall r hrdb hw1 hw2
    simp [hnil]

/-- C7 witness: an empty store has no record in any window, so the weekly
statistics are the explicit no-data result. -/
theorem get_weekly_stats_empty_window_witness :
    get_weekly_stats 7 [] = none :=
  (get_weekly_stats_empty_window 7 []).1.mpr (by simp)

/-! ### C4: gap reconciliation -/

lemma backfill_days_run (fetch : ℤ → Except String MetricsPatch) (now : ℤ) :
    ∀ (days : List ℤ) (st : RepoState),
      (backfill_days fetch now days st).2 =
        days.flatMap (fun d =>
          match fetch d with
          | .ok _ => [.fetched d, .stored d, .logged d .success, .paused d]
          | .error _ => [.fetched d]) ∧
      (backfill_days fetch now days st).1.log =
        st.log ++ (days.filter (fun d => (fetch d).isOk)).map
          (fun _ => { sync_date := now, status := .success,
                      error_message := none }) := by
  intro days
  induction days with
  | nil => intro st; simp [backfill_days]
  | cons d rest ih =>
    intro st
    cases hf : fetch d with
    | ok m =>
      have hok : (fetch d).isOk = true := by
        simp [hf, Except.isOk, Except.toBool]
      have h2 := ih (log_sync now .success none
        { st with db := save_daily_metrics now d m st.db })
      simp only [log_sync] at h2
      refine ⟨?_, ?_⟩
      · simp [backfill_days, hf, log_sync, h2.1]
      · simp [backfill_days, hf, h2.2, log_sync, List.filter_cons,
          Except.isOk, Except.toBool]
    | error e =>
      have hnok : (fetch d).isOk = false := by
        simp [hf, Except.isOk, Except.toBool]
      have h2 := ih st
      refine ⟨?_, ?_⟩
      · simp [backfill_days, hf, h2.1]
      · simp [backfill_days, hf, h2.2, List.filter_cons,
          Except.isOk, Except.toBool]

/-- C4 counterexample: on a fresh store all seven trailing dates are
missing; a provider failing on every date leaves the attempt log empty —
each date is fetched (and fails), yet no error attempt is appended,
contradicting the claim that a success or error attempt is appended for
each date's outcome. -/
theorem startup_backfill_silent_failure :
    (get_missing_dates (10 - 7) (10 - 1) ([] : List DailyMetrics)).length
      = 7 ∧
    (run_startup_backfill (fun _ => .error "network down") 0 10
      { db := [], log := [] }).2 =
      [.fetched 3, .fetched 4, .fetched 5, .fetched 6, .fetched 7,
       .fetched 8, .fetched 9] ∧
    (run_startup_backfill (fun _ => .error "network down") 0 10
      { db := [], log := [] }).1.log = [] := by
  decide

/-- C4 (amended): the startup backfill processes exactly the missing dates
of the trailing 7-day window in ascending order, fetching and storing each
date individually; a `success` attempt is appended for each date that
succeeds, while a failing date appends no attempt at all (the failure is
only logged as a warning); the brief pause follows each successful request;
and a failure on one date never prevents later dates from being processed
(every missing date is fetched regardless of earlier outcomes). -/
theorem startup_backfill_independent :
    ∀ (fetch : ℤ → Except String MetricsPatch) (now today : ℤ)
      (st : RepoState),
      (run_startup_backfill fetch now today st).2 =
        (get_missing_dates (today - 7) (today - 1) st.db).flatMap (fun d =>
          match fetch d with
          | .ok _ => [.fetched d, .stored d, .logged d .success, .paused d]
          | .error _ => [.fetched d]) ∧
      (run_startup_backfill fetch now today st).1.log =
        st.log ++ ((get_missing_dates (today - 7) (today - 1) st.db).filter
          (fun d => (fetch d).isOk)).map
          (fun _ => { sync_date := now, status := .success,
                      error_message := none }) ∧
      List.Sorted (· < ·)
        (get_missing_dates (today - 7) (today - 1) st.db) := by
  intro fetch now today st
  have h := backfill_days_run fetch now
    (get_missing_dates (today - 7) (today - 1) st.db) st
  exact ⟨h.1, h.2, sorted_get_missing_dates _ _ _⟩

/-! ### C1, C2: wake detection and fallback -/

/-- C1: evidence against the claim that the fallback appends no
`report_sent` attempt.  Concrete run of `wake_fallback_job` with no report
sent today, a failing sync and no stored row for yesterday: the job appends
an `error` attempt and then — through `_send_daily_report`'s no-data branch,
which marks the report sent "to avoid duplicate error messages" — a
`report_sent` attempt.  The repository's own test
(`test_wake_fallback_job_forces_sync`) asserts `log_report_sent` is never
called from the fallback, so the claim matches the intended policy and the
shipped fallback contradicts it. -/
theorem wake_fallback_appends_report_sent :
    (wake_fallback_job 100 5 110 (.error "network down") true
      { db := [], log := [] }).1.log =
      [{ sync_date := 110, status := .error,
         error_message := some "network down" },
       { sync_date := 110, status := .report_sent, error_message := none }] ∧
    (wake_fallback_job 100 5 110 (.error "network down") true
      { db := [], log := [] }).2 = false := by
  decide

/-- C2: evidence against the claim that a woken poll tick appends exactly
one `report_sent` attempt and that the next tick is a no-op.  Concrete run
of `wake_check_job` with no report sent today, availability true, and a sync
that succeeds and stores yesterday's row: building the report payload reads
`row.total_calories`, a column `DailyMetrics` does not define, so the job
raises before `log_report_sent`; the log gains only the sync attempt, and a
second tick the same day repeats the whole sync instead of being a no-op. -/
theorem wake_check_never_marks_report_sent :
    ((wake_check_job 100 5 110 true
        (.ok (5, { garmin_sync_success := some true })) true
        { db := [], log := [] }).2 = true) ∧
    ((wake_check_job 100 5 110 true
        (.ok (5, { garmin_sync_success := some true })) true
        { db := [], log := [] }).1.log =
      [{ sync_date := 110, status := .success, error_message := none }]) ∧
    ((wake_check_job 100 5 120 true
        (.ok (5, { garmin_sync_success := some true })) true
        ((wake_check_job 100 5 110 true
          (.ok (5, { garmin_sync_success := some true })) true
          { db := [], log := [] }).1)).1.log =
      [{ sync_date := 110, status := .success, error_message := none },
       { sync_date := 120, status := .success, error_message := none }]) := by
  decide

end GarminBot
